import Mathlib

/-!
# The Thrift type-descriptor registry `TCLIServiceConstants`

A shallow embedding of `service-rpc/src/gen/thrift/gen-cpp/TCLIService_constants.cpp`.

The constructor `TCLIServiceConstants::TCLIServiceConstants()` fills three
`std::set<TTypeId::type>` members, one `std::map<TTypeId::type, std::string>` member and
three `std::string` members with literals.  The containers are modelled as key-ordered
lists with the insertion rule of the C++ standard library (an insertion of a key that is
already present changes nothing), and the constructor as the sequence of its statements,
in source order, run on empty containers.
-/

namespace TCLIService

/-- The enumeration `TTypeId::type`.  The source only ever writes its values as casts of
integer literals, `(TTypeId::type)0` ... `(TTypeId::type)22`, so a value is its integer. -/
abbrev TTypeId := Int

/-! ## `std::set<TTypeId::type>` -/

/-- A `std::set<TTypeId::type>`: its elements, in increasing key order. -/
abbrev StdSet := List TTypeId

/-- The empty set a default-constructed `std::set` member holds. -/
def StdSet.empty : StdSet := []

/-- The member function `std::set::insert(x)`: `x` is put at its place in key order, and
the set is left as it is when an equal key is already there. -/
def StdSet.insert : StdSet → TTypeId → StdSet
  | [], x => [x]
  | y :: ys, x =>
    if x < y then x :: y :: ys
    else if y < x then y :: StdSet.insert ys x
    else y :: ys

/-- The member function `std::set::count(x)`: the number of elements equal to `x`. -/
def StdSet.count (s : StdSet) (x : TTypeId) : Nat :=
  (s.filter (fun y => decide (y = x))).length

/-- The member function `std::set::size()`. -/
def StdSet.size (s : StdSet) : Nat := s.length

/-! ## `std::map<TTypeId::type, std::string>` -/

/-- A `std::map<TTypeId::type, std::string>`: its entries, in increasing key order. -/
abbrev StdMap := List (TTypeId × String)

/-- The empty map a default-constructed `std::map` member holds. -/
def StdMap.empty : StdMap := []

/-- The member function `std::map::insert(std::make_pair(k, v))`: the pair is put at its
place in key order; when the key is already present the map keeps the entry it has. -/
def StdMap.insert : StdMap → TTypeId × String → StdMap
  | [], kv => [kv]
  | e :: es, kv =>
    if kv.1 < e.1 then kv :: e :: es
    else if e.1 < kv.1 then e :: StdMap.insert es kv
    else e :: es

/-- The member function `std::map::find(k)`, with `end()` read as `none` and an iterator
to an entry read as the mapped string of that entry. -/
def StdMap.find : StdMap → TTypeId → Option String
  | [], _ => none
  | e :: es, k => if e.1 = k then some e.2 else StdMap.find es k

/-- The member function `std::map::size()`. -/
def StdMap.size (m : StdMap) : Nat := m.length

/-- The keys of a map, in order. -/
def StdMap.keys (m : StdMap) : List TTypeId := m.map Prod.fst

/-! ## The class and its constructor -/

/-- The class `TCLIServiceConstants`: the seven data members the constructor assigns. -/
structure TCLIServiceConstants where
  PRIMITIVE_TYPES : StdSet
  COMPLEX_TYPES : StdSet
  COLLECTION_TYPES : StdSet
  TYPE_NAMES : StdMap
  CHARACTER_MAXIMUM_LENGTH : String
  PRECISION : String
  SCALE : String
  deriving DecidableEq, Repr

/-- The arguments of the statements `PRIMITIVE_TYPES.insert(...)`, source lines 14-31. -/
def primitiveInserts : List TTypeId :=
  [0, 1, 2, 3, 4, 5, 6, 7, 8, 9, 15, 16, 17, 18, 19, 20, 21, 22]

/-- The arguments of the statements `COMPLEX_TYPES.insert(...)`, source lines 33-37. -/
def complexInserts : List TTypeId := [10, 11, 12, 13, 14]

/-- The arguments of the statements `COLLECTION_TYPES.insert(...)`, source lines 39-40. -/
def collectionInserts : List TTypeId := [10, 11]

/-- The arguments of the statements `TYPE_NAMES.insert(std::make_pair(...))`, source
lines 42-63, in the order the source has them. -/
def typeNameInserts : List (TTypeId × String) :=
  [ (21, "INTERVAL_DAY_TIME"),
    (22, "TIMESTAMP WITH LOCAL TIME ZONE"),
    (0, "BOOLEAN"),
    (1, "TINYINT"),
    (2, "SMALLINT"),
    (3, "INT"),
    (4, "BIGINT"),
    (5, "FLOAT"),
    (6, "DOUBLE"),
    (7, "STRING"),
    (8, "TIMESTAMP"),
    (9, "BINARY"),
    (10, "ARRAY"),
    (11, "MAP"),
    (12, "STRUCT"),
    (13, "UNIONTYPE"),
    (15, "DECIMAL"),
    (16, "NULL"),
    (17, "DATE"),
    (18, "VARCHAR"),
    (19, "CHAR"),
    (20, "INTERVAL_YEAR_MONTH") ]

/-- The constructor `TCLIServiceConstants::TCLIServiceConstants()`: every container
member starts empty and receives its insertions one after the other; the three string
members are assigned their literals (source lines 65-69). -/
def TCLIServiceConstants.ctor : TCLIServiceConstants where
  PRIMITIVE_TYPES := primitiveInserts.foldl StdSet.insert StdSet.empty
  COMPLEX_TYPES := complexInserts.foldl StdSet.insert StdSet.empty
  COLLECTION_TYPES := collectionInserts.foldl StdSet.insert StdSet.empty
  TYPE_NAMES := typeNameInserts.foldl StdMap.insert StdMap.empty
  CHARACTER_MAXIMUM_LENGTH := "characterMaximumLength"
  PRECISION := "precision"
  SCALE := "scale"

/-- The global `const TCLIServiceConstants g_TCLIService_constants;` (source line 11). -/
def g_TCLIService_constants : TCLIServiceConstants := TCLIServiceConstants.ctor

/-! ## The queries of the registry -/

/-- Modelled from the spec: the query `isPrimitive(id)`, which the source does not define
as a function; the spec has it "true iff `id` is a member of the Primitive set". -/
def isPrimitive (c : TCLIServiceConstants) (id : TTypeId) : Bool :=
  decide (StdSet.count c.PRIMITIVE_TYPES id ≠ 0)

/-- Modelled from the spec: the query `isComplex(id)`, "true iff `id` is a member of the
Complex set". -/
def isComplex (c : TCLIServiceConstants) (id : TTypeId) : Bool :=
  decide (StdSet.count c.COMPLEX_TYPES id ≠ 0)

/-- Modelled from the spec: the query `isCollection(id)`, "true iff `id` is a member of
the Collection set". -/
def isCollection (c : TCLIServiceConstants) (id : TTypeId) : Bool :=
  decide (StdSet.count c.COLLECTION_TYPES id ≠ 0)

/-- Modelled from the spec: the query `displayName(id)`, the lookup of `id` in
`TYPE_NAMES`; a typed not-found result is `none`. -/
def displayName (c : TCLIServiceConstants) (id : TTypeId) : Option String :=
  StdMap.find c.TYPE_NAMES id

/-- The metadata attribute keys of the registry, in declaration order. -/
def metadataKeys (c : TCLIServiceConstants) : List String :=
  [c.CHARACTER_MAXIMUM_LENGTH, c.PRECISION, c.SCALE]

/-- The ids the registry categorizes: the finite set of the ids that are a member of
`PRIMITIVE_TYPES` or of `COMPLEX_TYPES`. -/
def knownTypeIds (c : TCLIServiceConstants) : Finset TTypeId :=
  c.PRIMITIVE_TYPES.toFinset ∪ c.COMPLEX_TYPES.toFinset

/-- A canonical uppercase label character: `A`-`Z`, the underscore or the blank. -/
def isLabelChar (ch : Char) : Bool :=
  (decide (65 ≤ ch.toNat) && decide (ch.toNat ≤ 90)) || ch.toNat == 95 || ch.toNat == 32

/-- A lowercase letter, `a`-`z`. -/
def isLowerChar (ch : Char) : Bool :=
  decide (97 ≤ ch.toNat) && decide (ch.toNat ≤ 122)

/-! ## Insertion with overwriting, for comparison -/

/-- The insert-or-overwrite rule that `std::map::insert` is compared with
(`std::map::insert_or_assign`, or the assignment `m[k] = v`): the pair is put at its
place in key order, and when the key is already present the new pair replaces the entry
the map has. -/
def StdMap.insertOrAssign : StdMap → TTypeId × String → StdMap
  | [], kv => [kv]
  | e :: es, kv =>
    if kv.1 < e.1 then kv :: e :: es
    else if e.1 < kv.1 then e :: StdMap.insertOrAssign es kv
    else kv :: es

/-! ## The containers the constructor builds -/

theorem primitive_types_eq :
    g_TCLIService_constants.PRIMITIVE_TYPES
      = [0, 1, 2, 3, 4, 5, 6, 7, 8, 9, 15, 16, 17, 18, 19, 20, 21, 22] := by
  decide

theorem complex_types_eq :
    g_TCLIService_constants.COMPLEX_TYPES = [10, 11, 12, 13, 14] := by
  decide

theorem collection_types_eq :
    g_TCLIService_constants.COLLECTION_TYPES = [10, 11] := by
  decide

theorem type_names_eq :
    g_TCLIService_constants.TYPE_NAMES
      = [ (0, "BOOLEAN"), (1, "TINYINT"), (2, "SMALLINT"), (3, "INT"), (4, "BIGINT"),
          (5, "FLOAT"), (6, "DOUBLE"), (7, "STRING"), (8, "TIMESTAMP"), (9, "BINARY"),
          (10, "ARRAY"), (11, "MAP"), (12, "STRUCT"), (13, "UNIONTYPE"), (15, "DECIMAL"),
          (16, "NULL"), (17, "DATE"), (18, "VARCHAR"), (19, "CHAR"),
          (20, "INTERVAL_YEAR_MONTH"), (21, "INTERVAL_DAY_TIME"),
          (22, "TIMESTAMP WITH LOCAL TIME ZONE") ] := by
  decide

/-! ## Membership and lookup in the containers -/

theorem StdSet.count_ne_zero_iff (s : StdSet) (x : TTypeId) :
    StdSet.count s x ≠ 0 ↔ x ∈ s := by
  unfold StdSet.count
  rw [Ne, List.length_eq_zero, List.filter_eq_nil_iff]
  constructor
  · intro h
    by_contra hx
    exact h (fun y hy => by
      simp only [decide_eq_true_eq]
      rintro rfl
      exact hx hy)
  · intro hx h
    have := h x hx
    simp at this

theorem StdMap.find_some_mem_keys (m : StdMap) (k : TTypeId) (v : String)
    (h : StdMap.find m k = some v) : k ∈ StdMap.keys m := by
  induction m with
  | nil => simp [StdMap.find] at h
  | cons e es ih =>
    unfold StdMap.find at h
    by_cases hk : e.1 = k
    · simp [StdMap.keys, hk]
    · rw [if_neg hk] at h
      have := ih h
      simp only [StdMap.keys, List.map_cons, List.mem_cons] at this ⊢
      exact Or.inr this

theorem StdMap.find_none_of_not_mem_keys (m : StdMap) (k : TTypeId)
    (h : k ∉ StdMap.keys m) : StdMap.find m k = none := by
  cases hf : StdMap.find m k with
  | none => rfl
  | some v => exact absurd (StdMap.find_some_mem_keys m k v hf) h

theorem isPrimitive_iff (c : TCLIServiceConstants) (id : TTypeId) :
    isPrimitive c id = true ↔ id ∈ c.PRIMITIVE_TYPES := by
  simp only [isPrimitive, decide_eq_true_eq]
  exact StdSet.count_ne_zero_iff _ _

theorem isComplex_iff (c : TCLIServiceConstants) (id : TTypeId) :
    isComplex c id = true ↔ id ∈ c.COMPLEX_TYPES := by
  simp only [isComplex, decide_eq_true_eq]
  exact StdSet.count_ne_zero_iff _ _

theorem isCollection_iff (c : TCLIServiceConstants) (id : TTypeId) :
    isCollection c id = true ↔ id ∈ c.COLLECTION_TYPES := by
  simp only [isCollection, decide_eq_true_eq]
  exact StdSet.count_ne_zero_iff _ _

theorem mem_primitive_types (id : TTypeId) :
    id ∈ g_TCLIService_constants.PRIMITIVE_TYPES ↔ (0 ≤ id ∧ id ≤ 9) ∨ (15 ≤ id ∧ id ≤ 22) := by
  rw [primitive_types_eq]
  simp only [List.mem_cons, List.mem_singleton, List.not_mem_nil, or_false]
  unfold TTypeId at *
  omega

theorem mem_complex_types (id : TTypeId) :
    id ∈ g_TCLIService_constants.COMPLEX_TYPES ↔ 10 ≤ id ∧ id ≤ 14 := by
  rw [complex_types_eq]
  simp only [List.mem_cons, List.mem_singleton, List.not_mem_nil, or_false]
  unfold TTypeId at *
  omega

theorem mem_collection_types (id : TTypeId) :
    id ∈ g_TCLIService_constants.COLLECTION_TYPES ↔ id = 10 ∨ id = 11 := by
  rw [collection_types_eq]
  simp only [List.mem_cons, List.mem_singleton, List.not_mem_nil, or_false]

theorem type_names_keys_eq :
    StdMap.keys g_TCLIService_constants.TYPE_NAMES
      = [0, 1, 2, 3, 4, 5, 6, 7, 8, 9, 10, 11, 12, 13, 15, 16, 17, 18, 19, 20, 21, 22] := by
  decide

theorem mem_type_names_keys (id : TTypeId) :
    id ∈ StdMap.keys g_TCLIService_constants.TYPE_NAMES
      ↔ (0 ≤ id ∧ id ≤ 13) ∨ (15 ≤ id ∧ id ≤ 22) := by
  rw [type_names_keys_eq]
  simp only [List.mem_cons, List.mem_singleton, List.not_mem_nil, or_false]
  unfold TTypeId at *
  omega

/-- A key of `TYPE_NAMES` is found, with a name that is not the empty string. -/
theorem find_of_mem_keys (id : TTypeId)
    (h : id ∈ StdMap.keys g_TCLIService_constants.TYPE_NAMES) :
    ∃ n, StdMap.find g_TCLIService_constants.TYPE_NAMES id = some n ∧ n ≠ "" := by
  rw [type_names_keys_eq] at h
  simp only [List.mem_cons, List.mem_singleton, List.not_mem_nil, or_false] at h
  rcases h with h | h | h | h | h | h | h | h | h | h | h | h | h | h | h | h | h | h | h | h
    | h | h <;> subst h <;> exact ⟨_, rfl, by decide⟩

/-! ## The display names of the categorized ids -/

theorem find_14_none : StdMap.find g_TCLIService_constants.TYPE_NAMES 14 = none := by
  decide

/-- C1, as the spec states it, fails at the id 14: the constructor inserts 14 into
`COMPLEX_TYPES` (source line 37), and no statement inserts a name for 14 into
`TYPE_NAMES`, so the lookup of this categorized id finds no entry. -/
theorem display_name_not_total_at_14 :
    (14 : TTypeId) ∈ g_TCLIService_constants.COMPLEX_TYPES
      ∧ isComplex g_TCLIService_constants 14 = true
      ∧ StdMap.find g_TCLIService_constants.TYPE_NAMES 14 = none
      ∧ ¬ ∃ n, displayName g_TCLIService_constants 14 = some n := by
  refine ⟨by decide, by decide, find_14_none, ?_⟩
  rintro ⟨n, hn⟩
  have hn' : StdMap.find g_TCLIService_constants.TYPE_NAMES 14 = some n := hn
  rw [find_14_none] at hn'
  exact Option.noConfusion hn'

/-- C1, amended: for an id the constructor puts into `PRIMITIVE_TYPES` or `COMPLEX_TYPES`,
the lookup of the id in `TYPE_NAMES` succeeds, with exactly one name, if and only if the
id is not 14; so the display-name mapping is total over the categorized ids other
than 14, and 14 alone has no name. -/
theorem display_name_total_except_14 (id : TTypeId)
    (h : id ∈ g_TCLIService_constants.PRIMITIVE_TYPES
      ∨ id ∈ g_TCLIService_constants.COMPLEX_TYPES) :
    (∃! n, displayName g_TCLIService_constants id = some n) ↔ id ≠ 14 := by
  constructor
  · rintro ⟨n, hn, _⟩ rfl
    have hn' : StdMap.find g_TCLIService_constants.TYPE_NAMES 14 = some n := hn
    rw [find_14_none] at hn'
    exact Option.noConfusion hn'
  · intro hne
    have hk : id ∈ StdMap.keys g_TCLIService_constants.TYPE_NAMES := by
      rw [mem_type_names_keys]
      rw [mem_primitive_types, mem_complex_types] at h
      unfold TTypeId at *
      omega
    obtain ⟨n, hn, _⟩ := find_of_mem_keys id hk
    refine ⟨n, hn, ?_⟩
    intro m hm
    have hm' : StdMap.find g_TCLIService_constants.TYPE_NAMES id = some m := hm
    rw [hn] at hm'
    exact (Option.some.inj hm').symm

/-- The amended C1 at the id 3, a member of `PRIMITIVE_TYPES`. -/
theorem display_name_total_except_14_witness :
    ((3 : TTypeId) ∈ g_TCLIService_constants.PRIMITIVE_TYPES
        ∨ (3 : TTypeId) ∈ g_TCLIService_constants.COMPLEX_TYPES)
      ∧ ((∃! n, displayName g_TCLIService_constants 3 = some n) ↔ (3 : TTypeId) ≠ 14) :=
  ⟨Or.inl (by decide), display_name_total_except_14 3 (Or.inl (by decide))⟩

/-! ## The categories -/

/-- C2: for every id in `PRIMITIVE_TYPES` as the constructor builds it, `isPrimitive` is
true and `isComplex` and `isCollection` are false; the id is not a member of
`COMPLEX_TYPES`, so that no id is both primitive and complex. -/
theorem primitive_only_primitive (id : TTypeId)
    (h : id ∈ g_TCLIService_constants.PRIMITIVE_TYPES) :
    isPrimitive g_TCLIService_constants id = true
      ∧ isComplex g_TCLIService_constants id = false
      ∧ isCollection g_TCLIService_constants id = false
      ∧ id ∉ g_TCLIService_constants.COMPLEX_TYPES := by
  have hc : id ∉ g_TCLIService_constants.COMPLEX_TYPES := by
    rw [mem_primitive_types] at h
    rw [mem_complex_types]
    unfold TTypeId at *
    omega
  have hl : id ∉ g_TCLIService_constants.COLLECTION_TYPES := by
    rw [mem_primitive_types] at h
    rw [mem_collection_types]
    unfold TTypeId at *
    omega
  refine ⟨(isPrimitive_iff _ _).2 h, ?_, ?_, hc⟩
  · exact Bool.eq_false_iff.2 (fun ht => hc ((isComplex_iff _ _).1 ht))
  · exact Bool.eq_false_iff.2 (fun ht => hl ((isCollection_iff _ _).1 ht))

/-- C2 at the id 7 (`STRING`). -/
theorem primitive_only_primitive_witness :
    (7 : TTypeId) ∈ g_TCLIService_constants.PRIMITIVE_TYPES
      ∧ isPrimitive g_TCLIService_constants 7 = true
      ∧ isComplex g_TCLIService_constants 7 = false
      ∧ isCollection g_TCLIService_constants 7 = false
      ∧ (7 : TTypeId) ∉ g_TCLIService_constants.COMPLEX_TYPES :=
  ⟨by decide, primitive_only_primitive 7 (by decide)⟩

/-- C3: `COLLECTION_TYPES` is a subset of `COMPLEX_TYPES`: for every id in the Collection
set the constructor builds, the id is in the Complex set, and `isComplex` and
`isCollection` are both true. -/
theorem collection_subset_complex (id : TTypeId)
    (h : id ∈ g_TCLIService_constants.COLLECTION_TYPES) :
    id ∈ g_TCLIService_constants.COMPLEX_TYPES
      ∧ isComplex g_TCLIService_constants id = true
      ∧ isCollection g_TCLIService_constants id = true := by
  have hc : id ∈ g_TCLIService_constants.COMPLEX_TYPES := by
    rw [mem_collection_types] at h
    rw [mem_complex_types]
    unfold TTypeId at *
    omega
  exact ⟨hc, (isComplex_iff _ _).2 hc, (isCollection_iff _ _).2 h⟩

/-- C3 at the id 11 (`MAP`). -/
theorem collection_subset_complex_witness :
    (11 : TTypeId) ∈ g_TCLIService_constants.COLLECTION_TYPES
      ∧ (11 : TTypeId) ∈ g_TCLIService_constants.COMPLEX_TYPES
      ∧ isComplex g_TCLIService_constants 11 = true
      ∧ isCollection g_TCLIService_constants 11 = true :=
  ⟨by decide, collection_subset_complex 11 (by decide)⟩

/-- C4: the concrete scenario of the spec on the registry the constructor builds:
`isPrimitive(3)` is true and `displayName(3)` is `"INT"`; `isComplex(10)` and
`isCollection(10)` are true and `displayName(10)` is `"ARRAY"`; `isComplex(13)` is true,
`isCollection(13)` is false and `displayName(13)` is `"UNIONTYPE"`. -/
theorem concrete_scenario :
    isPrimitive g_TCLIService_constants 3 = true
      ∧ displayName g_TCLIService_constants 3 = some "INT"
      ∧ isComplex g_TCLIService_constants 10 = true
      ∧ isCollection g_TCLIService_constants 10 = true
      ∧ displayName g_TCLIService_constants 10 = some "ARRAY"
      ∧ isComplex g_TCLIService_constants 13 = true
      ∧ isCollection g_TCLIService_constants 13 = false
      ∧ displayName g_TCLIService_constants 13 = some "UNIONTYPE" := by
  decide

/-- C5: for every integer id outside 0..22, `isPrimitive`, `isComplex` and `isCollection`
are all false, and the lookup in `TYPE_NAMES` returns the explicit not-found result: it
is `none`, and so it is no name. -/
theorem unknown_id_not_found (id : TTypeId) (h : id < 0 ∨ 22 < id) :
    isPrimitive g_TCLIService_constants id = false
      ∧ isComplex g_TCLIService_constants id = false
      ∧ isCollection g_TCLIService_constants id = false
      ∧ StdMap.find g_TCLIService_constants.TYPE_NAMES id = none
      ∧ displayName g_TCLIService_constants id = none
      ∧ ∀ n, displayName g_TCLIService_constants id ≠ some n := by
  have hp : id ∉ g_TCLIService_constants.PRIMITIVE_TYPES := by
    rw [mem_primitive_types]
    unfold TTypeId at *
    omega
  have hc : id ∉ g_TCLIService_constants.COMPLEX_TYPES := by
    rw [mem_complex_types]
    unfold TTypeId at *
    omega
  have hl : id ∉ g_TCLIService_constants.COLLECTION_TYPES := by
    rw [mem_collection_types]
    unfold TTypeId at *
    omega
  have hk : id ∉ StdMap.keys g_TCLIService_constants.TYPE_NAMES := by
    rw [mem_type_names_keys]
    unfold TTypeId at *
    omega
  have hf := StdMap.find_none_of_not_mem_keys _ _ hk
  refine ⟨?_, ?_, ?_, hf, hf, ?_⟩
  · exact Bool.eq_false_iff.2 (fun ht => hp ((isPrimitive_iff _ _).1 ht))
  · exact Bool.eq_false_iff.2 (fun ht => hc ((isComplex_iff _ _).1 ht))
  · exact Bool.eq_false_iff.2 (fun ht => hl ((isCollection_iff _ _).1 ht))
  · intro n hn
    have hn' : StdMap.find g_TCLIService_constants.TYPE_NAMES id = some n := hn
    rw [hf] at hn'
    exact Option.noConfusion hn'

/-- C5 at the id 100, the unknown id of the spec's scenario. -/
theorem unknown_id_not_found_witness :
    ((100 : TTypeId) < 0 ∨ 22 < (100 : TTypeId))
      ∧ isPrimitive g_TCLIService_constants 100 = false
      ∧ isComplex g_TCLIService_constants 100 = false
      ∧ isCollection g_TCLIService_constants 100 = false
      ∧ StdMap.find g_TCLIService_constants.TYPE_NAMES 100 = none
      ∧ displayName g_TCLIService_constants 100 = none
      ∧ ∀ n, displayName g_TCLIService_constants 100 ≠ some n :=
  ⟨Or.inr (by decide), unknown_id_not_found 100 (Or.inr (by decide))⟩

/-! ## Counting the categorized ids -/

theorem mem_knownTypeIds (id : TTypeId) :
    id ∈ knownTypeIds g_TCLIService_constants
      ↔ id ∈ g_TCLIService_constants.PRIMITIVE_TYPES
        ∨ id ∈ g_TCLIService_constants.COMPLEX_TYPES := by
  simp [knownTypeIds]

theorem card_knownTypeIds : (knownTypeIds g_TCLIService_constants).card = 23 := by
  decide

/-! ## The metadata attribute keys -/

/-- C6: after construction the three metadata attribute keys are exactly the literal
strings `"characterMaximumLength"`, `"precision"` and `"scale"`: they are pairwise
distinct, a spelling in another case is a different string, and the registry has these
three keys and no other. -/
theorem metadata_keys_literal :
    g_TCLIService_constants.CHARACTER_MAXIMUM_LENGTH = "characterMaximumLength"
      ∧ g_TCLIService_constants.PRECISION = "precision"
      ∧ g_TCLIService_constants.SCALE = "scale"
      ∧ g_TCLIService_constants.CHARACTER_MAXIMUM_LENGTH ≠ g_TCLIService_constants.PRECISION
      ∧ g_TCLIService_constants.CHARACTER_MAXIMUM_LENGTH ≠ g_TCLIService_constants.SCALE
      ∧ g_TCLIService_constants.PRECISION ≠ g_TCLIService_constants.SCALE
      ∧ g_TCLIService_constants.CHARACTER_MAXIMUM_LENGTH ≠ "CharacterMaximumLength"
      ∧ g_TCLIService_constants.PRECISION ≠ "PRECISION"
      ∧ g_TCLIService_constants.SCALE ≠ "Scale"
      ∧ metadataKeys g_TCLIService_constants
          = ["characterMaximumLength", "precision", "scale"] := by
  decide

/-! ## The size of the closed set of ids -/

/-- C7, as the spec states it, fails: the constructor places 23 distinct ids in
`PRIMITIVE_TYPES` or `COMPLEX_TYPES`, not 20, and one of them, 14, has no display
name. -/
theorem known_ids_not_20 :
    (knownTypeIds g_TCLIService_constants).card ≠ 20
      ∧ (14 : TTypeId) ∈ knownTypeIds g_TCLIService_constants
      ∧ displayName g_TCLIService_constants 14 = none := by
  refine ⟨?_, ?_, find_14_none⟩
  · rw [card_knownTypeIds]
    decide
  · rw [mem_knownTypeIds]
    exact Or.inr (by decide)

/-- C7, amended: the closed set of known TypeIds has exactly 23 members, the 18 of
`PRIMITIVE_TYPES` and the 5 of `COMPLEX_TYPES`; `displayName` returns a string that is not
empty for each of them other than 14, which are 22 ids, and returns no name for 14. -/
theorem known_ids_23_named_except_14 :
    (knownTypeIds g_TCLIService_constants).card = 23
      ∧ StdSet.size g_TCLIService_constants.PRIMITIVE_TYPES = 18
      ∧ StdSet.size g_TCLIService_constants.COMPLEX_TYPES = 5
      ∧ ((knownTypeIds g_TCLIService_constants).erase 14).card = 22
      ∧ ∀ id, id ∈ knownTypeIds g_TCLIService_constants →
          ((∃ n, displayName g_TCLIService_constants id = some n ∧ n ≠ "" ∧ 0 < n.length)
            ↔ id ≠ 14) := by
  refine ⟨card_knownTypeIds, by decide, by decide, by decide, ?_⟩
  intro id hid
  constructor
  · rintro ⟨n, hn, _⟩ rfl
    have hn' : StdMap.find g_TCLIService_constants.TYPE_NAMES 14 = some n := hn
    rw [find_14_none] at hn'
    exact Option.noConfusion hn'
  · intro hne
    have hk : id ∈ StdMap.keys g_TCLIService_constants.TYPE_NAMES := by
      rw [mem_type_names_keys]
      rw [mem_knownTypeIds, mem_primitive_types, mem_complex_types] at hid
      unfold TTypeId at *
      omega
    obtain ⟨n, hn, hne'⟩ := find_of_mem_keys id hk
    refine ⟨n, hn, hne', ?_⟩
    rcases Nat.eq_zero_or_pos n.length with h0 | h0
    · exact absurd (String.ext (List.length_eq_zero.1 h0)) hne'
    · exact h0

/-! ## The id 14 -/

/-- C8, as the spec states it, fails: 14 is not outside every category, the constructor
inserts it into `COMPLEX_TYPES` (source line 37). -/
theorem id_14_is_complex :
    (14 : TTypeId) ∈ g_TCLIService_constants.COMPLEX_TYPES
      ∧ isComplex g_TCLIService_constants 14 = true := by
  decide

/-- C8, amended: the id 14 is a gap in the keys of `TYPE_NAMES`, not in the categories:
it is a member of `COMPLEX_TYPES`, of neither `PRIMITIVE_TYPES` nor `COLLECTION_TYPES`,
and it has no entry in `TYPE_NAMES`. -/
theorem id_14_complex_without_name :
    (14 : TTypeId) ∈ g_TCLIService_constants.COMPLEX_TYPES
      ∧ (14 : TTypeId) ∉ g_TCLIService_constants.PRIMITIVE_TYPES
      ∧ (14 : TTypeId) ∉ g_TCLIService_constants.COLLECTION_TYPES
      ∧ isComplex g_TCLIService_constants 14 = true
      ∧ isPrimitive g_TCLIService_constants 14 = false
      ∧ isCollection g_TCLIService_constants 14 = false
      ∧ (14 : TTypeId) ∉ StdMap.keys g_TCLIService_constants.TYPE_NAMES
      ∧ StdMap.find g_TCLIService_constants.TYPE_NAMES 14 = none := by
  decide

/-! ## Categories and the names of the glossary -/

/-- C9: category membership agrees with the glossary: an id is in `COLLECTION_TYPES` if
and only if its display name is `"ARRAY"` or `"MAP"`; an id named `"ARRAY"`, `"MAP"`,
`"STRUCT"` or `"UNIONTYPE"` is in `COMPLEX_TYPES`; an id named `"INT"`, `"BOOLEAN"` or
`"STRING"` is in `PRIMITIVE_TYPES`; and each of these seven names is the display name of
some id. -/
theorem category_agrees_with_glossary (id : TTypeId) :
    (id ∈ g_TCLIService_constants.COLLECTION_TYPES
        ↔ displayName g_TCLIService_constants id = some "ARRAY"
          ∨ displayName g_TCLIService_constants id = some "MAP")
      ∧ (displayName g_TCLIService_constants id
            ∈ [some "ARRAY", some "MAP", some "STRUCT", some "UNIONTYPE"] →
          id ∈ g_TCLIService_constants.COMPLEX_TYPES
            ∧ isComplex g_TCLIService_constants id = true)
      ∧ (displayName g_TCLIService_constants id
            ∈ [some "INT", some "BOOLEAN", some "STRING"] →
          id ∈ g_TCLIService_constants.PRIMITIVE_TYPES
            ∧ isPrimitive g_TCLIService_constants id = true)
      ∧ (displayName g_TCLIService_constants 10 = some "ARRAY"
          ∧ displayName g_TCLIService_constants 11 = some "MAP"
          ∧ displayName g_TCLIService_constants 12 = some "STRUCT"
          ∧ displayName g_TCLIService_constants 13 = some "UNIONTYPE"
          ∧ displayName g_TCLIService_constants 3 = some "INT"
          ∧ displayName g_TCLIService_constants 0 = some "BOOLEAN"
          ∧ displayName g_TCLIService_constants 7 = some "STRING") := by
  by_cases hk : id ∈ StdMap.keys g_TCLIService_constants.TYPE_NAMES
  · rw [type_names_keys_eq] at hk
    simp only [List.mem_cons, List.mem_singleton, List.not_mem_nil, or_false] at hk
    rcases hk with h | h | h | h | h | h | h | h | h | h | h | h | h | h | h | h | h | h | h
      | h | h | h <;> subst h <;> decide
  · have hf : displayName g_TCLIService_constants id = none :=
      StdMap.find_none_of_not_mem_keys _ _ hk
    have hl : id ∉ g_TCLIService_constants.COLLECTION_TYPES := by
      rw [mem_type_names_keys] at hk
      rw [mem_collection_types]
      unfold TTypeId at *
      omega
    rw [hf]
    refine ⟨?_, ?_, ?_, by decide⟩
    · constructor
      · intro h
        exact absurd h hl
      · rintro (h | h) <;> exact Option.noConfusion h
    · intro h
      exact absurd h (by decide)
    · intro h
      exact absurd h (by decide)

/-! ## The shape of the display names -/

/-- C10: every display name stored in `TYPE_NAMES` is a canonical uppercase label: for
every entry of the map the constructor builds, the string is not empty, every character
of it is one of `A`-`Z`, `_` and the blank, and none is a lowercase letter. -/
theorem type_names_uppercase (e : TTypeId × String)
    (h : e ∈ g_TCLIService_constants.TYPE_NAMES) :
    e.2 ≠ "" ∧ 0 < e.2.length
      ∧ e.2.toList.all isLabelChar = true
      ∧ e.2.toList.any isLowerChar = false := by
  rw [type_names_eq] at h
  simp only [List.mem_cons, List.mem_singleton, List.not_mem_nil, or_false] at h
  rcases h with h | h | h | h | h | h | h | h | h | h | h | h | h | h | h | h | h | h | h
    | h | h | h <;> subst h <;> decide

/-- C10 at the entry of the id 22, the longest name and the one with blanks. -/
theorem type_names_uppercase_witness :
    ((22, "TIMESTAMP WITH LOCAL TIME ZONE") : TTypeId × String)
        ∈ g_TCLIService_constants.TYPE_NAMES
      ∧ "TIMESTAMP WITH LOCAL TIME ZONE" ≠ ""
      ∧ 0 < "TIMESTAMP WITH LOCAL TIME ZONE".length
      ∧ "TIMESTAMP WITH LOCAL TIME ZONE".toList.all isLabelChar = true
      ∧ "TIMESTAMP WITH LOCAL TIME ZONE".toList.any isLowerChar = false :=
  ⟨by decide, type_names_uppercase (22, "TIMESTAMP WITH LOCAL TIME ZONE") (by decide)⟩

/-! ## The partition of the range 0..22 -/

/-- C13: `PRIMITIVE_TYPES` and `COMPLEX_TYPES` partition the integer range 0..22: an
integer id is in one of the two sets exactly when `0 <= id <= 22`, and it is never in
both; `PRIMITIVE_TYPES` is `{0..9, 15..22}` with 18 members, `COMPLEX_TYPES` is `{10..14}`
with 5 members, and `COLLECTION_TYPES` is `{10, 11}`. -/
theorem categories_partition_range (id : TTypeId) :
    ((0 ≤ id ∧ id ≤ 22) ↔ (id ∈ g_TCLIService_constants.PRIMITIVE_TYPES
        ∨ id ∈ g_TCLIService_constants.COMPLEX_TYPES))
      ∧ ¬ (id ∈ g_TCLIService_constants.PRIMITIVE_TYPES
        ∧ id ∈ g_TCLIService_constants.COMPLEX_TYPES)
      ∧ (id ∈ g_TCLIService_constants.PRIMITIVE_TYPES
        ↔ (0 ≤ id ∧ id ≤ 9) ∨ (15 ≤ id ∧ id ≤ 22))
      ∧ (id ∈ g_TCLIService_constants.COMPLEX_TYPES ↔ 10 ≤ id ∧ id ≤ 14)
      ∧ (id ∈ g_TCLIService_constants.COLLECTION_TYPES ↔ id = 10 ∨ id = 11)
      ∧ StdSet.size g_TCLIService_constants.PRIMITIVE_TYPES = 18
      ∧ StdSet.size g_TCLIService_constants.COMPLEX_TYPES = 5
      ∧ StdSet.size g_TCLIService_constants.COLLECTION_TYPES = 2 := by
  refine ⟨?_, ?_, mem_primitive_types id, mem_complex_types id, mem_collection_types id,
    by decide, by decide, by decide⟩
  · rw [mem_primitive_types, mem_complex_types]
    unfold TTypeId at *
    omega
  · rw [mem_primitive_types, mem_complex_types]
    unfold TTypeId at *
    omega

/-! ## Names and categorized ids -/

/-- C14: no display name is orphaned: every id that has an entry in `TYPE_NAMES` is a
member of `PRIMITIVE_TYPES` or of `COMPLEX_TYPES`. -/
theorem type_names_keys_categorized (id : TTypeId)
    (h : id ∈ StdMap.keys g_TCLIService_constants.TYPE_NAMES) :
    (id ∈ g_TCLIService_constants.PRIMITIVE_TYPES
        ∨ id ∈ g_TCLIService_constants.COMPLEX_TYPES)
      ∧ id ∈ knownTypeIds g_TCLIService_constants := by
  have hc : id ∈ g_TCLIService_constants.PRIMITIVE_TYPES
      ∨ id ∈ g_TCLIService_constants.COMPLEX_TYPES := by
    rw [mem_type_names_keys] at h
    rw [mem_primitive_types, mem_complex_types]
    unfold TTypeId at *
    omega
  exact ⟨hc, (mem_knownTypeIds id).2 hc⟩

/-- C14 at the id 13 (`UNIONTYPE`), a key of `TYPE_NAMES`. -/
theorem type_names_keys_categorized_witness :
    (13 : TTypeId) ∈ StdMap.keys g_TCLIService_constants.TYPE_NAMES
      ∧ ((13 : TTypeId) ∈ g_TCLIService_constants.PRIMITIVE_TYPES
        ∨ (13 : TTypeId) ∈ g_TCLIService_constants.COMPLEX_TYPES)
      ∧ (13 : TTypeId) ∈ knownTypeIds g_TCLIService_constants :=
  ⟨by decide, type_names_keys_categorized 13 (by decide)⟩

/-! ## Distinct names -/

theorem StdMap.find_some_mem (m : StdMap) (k : TTypeId) (v : String)
    (h : StdMap.find m k = some v) : (k, v) ∈ m := by
  induction m with
  | nil => simp [StdMap.find] at h
  | cons e es ih =>
    unfold StdMap.find at h
    by_cases hk : e.1 = k
    · rw [if_pos hk] at h
      have hv : e.2 = v := Option.some.inj h
      have he : e = (k, v) := Prod.ext hk hv
      rw [he]
      exact List.mem_cons_self _ _
    · rw [if_neg hk] at h
      exact List.mem_cons_of_mem _ (ih h)

theorem type_names_values_nodup :
    (g_TCLIService_constants.TYPE_NAMES.map Prod.snd).Nodup := by
  rw [type_names_eq]
  decide

/-- C15: the display names are pairwise distinct: two different ids that both have an
entry in `TYPE_NAMES` have different names, so that a name identifies its id. -/
theorem display_names_distinct (i j : TTypeId) (n m : String)
    (hi : displayName g_TCLIService_constants i = some n)
    (hj : displayName g_TCLIService_constants j = some m)
    (hij : i ≠ j) : n ≠ m := by
  intro hnm
  have hi' := StdMap.find_some_mem _ _ _ hi
  have hj' := StdMap.find_some_mem _ _ _ hj
  have he := List.inj_on_of_nodup_map type_names_values_nodup hi' hj' hnm
  exact hij (congrArg Prod.fst he)

/-- C15 at the ids 8 and 22, whose names `TIMESTAMP` and
`TIMESTAMP WITH LOCAL TIME ZONE` share a beginning. -/
theorem display_names_distinct_witness :
    displayName g_TCLIService_constants 8 = some "TIMESTAMP"
      ∧ displayName g_TCLIService_constants 22 = some "TIMESTAMP WITH LOCAL TIME ZONE"
      ∧ (8 : TTypeId) ≠ 22
      ∧ "TIMESTAMP" ≠ "TIMESTAMP WITH LOCAL TIME ZONE" :=
  ⟨by decide, by decide, by decide,
    display_names_distinct 8 22 "TIMESTAMP" "TIMESTAMP WITH LOCAL TIME ZONE"
      (by decide) (by decide) (by decide)⟩

/-! ## The order of the insert statements -/

theorem StdMap.insert_comm (m : StdMap) (a b : TTypeId × String) (h : a.1 ≠ b.1) :
    StdMap.insert (StdMap.insert m a) b = StdMap.insert (StdMap.insert m b) a := by
  induction m with
  | nil =>
    simp only [StdMap.insert]
    split_ifs <;> first | rfl | (exfalso; unfold TTypeId at *; omega)
  | cons e es ih =>
    simp only [StdMap.insert]
    split_ifs <;> simp only [StdMap.insert] <;> split_ifs <;>
      first | rfl | (exfalso; unfold TTypeId at *; omega) | rw [ih]

theorem StdMap.insertOrAssign_comm (m : StdMap) (a b : TTypeId × String) (h : a.1 ≠ b.1) :
    StdMap.insertOrAssign (StdMap.insertOrAssign m a) b
      = StdMap.insertOrAssign (StdMap.insertOrAssign m b) a := by
  induction m with
  | nil =>
    simp only [StdMap.insertOrAssign]
    split_ifs <;> first | rfl | (exfalso; unfold TTypeId at *; omega)
  | cons e es ih =>
    simp only [StdMap.insertOrAssign]
    split_ifs <;> simp only [StdMap.insertOrAssign] <;> split_ifs <;>
      first | rfl | (exfalso; unfold TTypeId at *; omega) | rw [ih]

theorem type_name_inserts_keys_nodup : (typeNameInserts.map Prod.fst).Nodup := by
  decide

/-- Two insert statements of `TYPE_NAMES` with the same key are the same statement. -/
theorem type_name_inserts_key_ne (x y : TTypeId × String)
    (hx : x ∈ typeNameInserts) (hy : y ∈ typeNameInserts) (hxy : x ≠ y) : x.1 ≠ y.1 :=
  fun hk => hxy (List.inj_on_of_nodup_map type_name_inserts_keys_nodup hx hy hk)

/-- Any order of the `TYPE_NAMES` insert statements builds the map the source order
builds, under the keep-first rule. -/
theorem foldl_insert_perm (l : List (TTypeId × String)) (h : l.Perm typeNameInserts) :
    l.foldl StdMap.insert StdMap.empty
      = typeNameInserts.foldl StdMap.insert StdMap.empty := by
  refine (h.symm.foldl_eq' ?_ StdMap.empty).symm
  intro x hx y hy z
  by_cases hxy : x = y
  · rw [hxy]
  · exact StdMap.insert_comm z x y (type_name_inserts_key_ne x y hx hy hxy)

/-- Any order of the `TYPE_NAMES` insert statements builds the same map under the
overwrite rule. -/
theorem foldl_insertOrAssign_perm (l : List (TTypeId × String))
    (h : l.Perm typeNameInserts) :
    l.foldl StdMap.insertOrAssign StdMap.empty
      = typeNameInserts.foldl StdMap.insertOrAssign StdMap.empty := by
  refine (h.symm.foldl_eq' ?_ StdMap.empty).symm
  intro x hx y hy z
  by_cases hxy : x = y
  · rw [hxy]
  · exact StdMap.insertOrAssign_comm z x y (type_name_inserts_key_ne x y hx hy hxy)

theorem foldl_insertOrAssign_source_order :
    typeNameInserts.foldl StdMap.insertOrAssign StdMap.empty
      = g_TCLIService_constants.TYPE_NAMES := by
  decide

/-- C16: the 22 `TYPE_NAMES` insertions of the constructor use pairwise distinct keys,
and no id is inserted twice into any of the three sets, so no insertion is dropped by the
keep-first rule of `std::map::insert`: every inserted pair is an entry of the final map,
the map has exactly 22 entries and each set as many members as it has insert statements;
and the final map is the same under any permutation `l` of the insert statements and
under insert-or-overwrite semantics. -/
theorem type_names_insert_order_irrelevant (l : List (TTypeId × String))
    (h : l.Perm typeNameInserts) :
    (typeNameInserts.map Prod.fst).Nodup
      ∧ primitiveInserts.Nodup ∧ complexInserts.Nodup ∧ collectionInserts.Nodup
      ∧ typeNameInserts.length = 22
      ∧ StdMap.size g_TCLIService_constants.TYPE_NAMES = 22
      ∧ StdSet.size g_TCLIService_constants.PRIMITIVE_TYPES = primitiveInserts.length
      ∧ StdSet.size g_TCLIService_constants.COMPLEX_TYPES = complexInserts.length
      ∧ StdSet.size g_TCLIService_constants.COLLECTION_TYPES = collectionInserts.length
      ∧ (∀ kv, kv ∈ typeNameInserts → kv ∈ g_TCLIService_constants.TYPE_NAMES)
      ∧ l.foldl StdMap.insert StdMap.empty = g_TCLIService_constants.TYPE_NAMES
      ∧ typeNameInserts.foldl StdMap.insertOrAssign StdMap.empty
          = g_TCLIService_constants.TYPE_NAMES
      ∧ l.foldl StdMap.insertOrAssign StdMap.empty
          = g_TCLIService_constants.TYPE_NAMES := by
  refine ⟨type_name_inserts_keys_nodup, by decide, by decide, by decide, by decide,
    by decide, by decide, by decide, by decide, by decide, ?_,
    foldl_insertOrAssign_source_order, ?_⟩
  · rw [foldl_insert_perm l h]
    rfl
  · rw [foldl_insertOrAssign_perm l h]
    exact foldl_insertOrAssign_source_order

/-- C16 at the insert statements in reverse order, last statement first. -/
theorem type_names_insert_order_irrelevant_witness :
    typeNameInserts.reverse.Perm typeNameInserts
      ∧ typeNameInserts.reverse.foldl StdMap.insert StdMap.empty
          = g_TCLIService_constants.TYPE_NAMES
      ∧ typeNameInserts.reverse.foldl StdMap.insertOrAssign StdMap.empty
          = g_TCLIService_constants.TYPE_NAMES :=
  ⟨List.reverse_perm _,
    (type_names_insert_order_irrelevant typeNameInserts.reverse
      (List.reverse_perm _)).2.2.2.2.2.2.2.2.2.2.1,
    (type_names_insert_order_irrelevant typeNameInserts.reverse
      (List.reverse_perm _)).2.2.2.2.2.2.2.2.2.2.2.2⟩

end TCLIService
